import Mathlib

/-!
Verification development for the graph-data validation and rendering core of
the web-scraper frontend (`src/frontend/src/components/GraphVisualisation.jsx`).

The embedding models the JavaScript values flowing through the component:
loose scalar values with JS truthiness and string coercion, the raw payload
(`graphData`), the node/edge construction with edge validation, the stats
aggregation, the JSON export, and the mount/unmount lifecycle of the
cytoscape instance held in `cyRef`.
-/

/-- Scalar JavaScript value as it appears in the untrusted payload fields:
`undefined`, `null`, string, integer number, or boolean. -/
inductive JsVal where
  | undef
  | null
  | str (s : String)
  | num (n : Int)
  | bool (b : Bool)
deriving Repr, DecidableEq

/-- JavaScript truthiness of a scalar value. -/
def JsVal.truthy : JsVal → Bool
  | .undef => false
  | .null => false
  | .str s => s != ""
  | .num n => n != 0
  | .bool b => b

/-- The JavaScript `a || b` operator on scalar values. -/
def jsOr (a b : JsVal) : JsVal :=
  if a.truthy then a else b

/-- The JavaScript `String(v)` coercion on scalar values. -/
def jsString : JsVal → String
  | .undef => "undefined"
  | .null => "null"
  | .str s => s
  | .num n => toString n
  | .bool true => "true"
  | .bool false => "false"

/-- An entity record of the raw payload. Absent fields are `JsVal.undef`;
`properties` is `none` when absent (the code defaults it to `{}`). -/
structure Entity where
  id : JsVal := .undef
  name : JsVal := .undef
  type : JsVal := .undef
  properties : Option (List (String × JsVal)) := none
  mentions : JsVal := .undef
deriving Repr, DecidableEq

/-- A relationship record of the raw payload; the code accepts both the
`source`/`target` and the `from`/`to` field spellings (`from'` stands for the
JS field `from`, which is a reserved word in Lean). -/
structure Relationship where
  source : JsVal := .undef
  from' : JsVal := .undef
  target : JsVal := .undef
  to' : JsVal := .undef
  type : JsVal := .undef
  relationship : JsVal := .undef
deriving Repr, DecidableEq

/-- The raw `graphData` payload. A field is `none` when it is missing or is
not an array (the code treats both the same way via `Array.isArray`). -/
structure Payload where
  entities : Option (List Entity) := none
  relationships : Option (List Relationship) := none
deriving Repr, DecidableEq

/-- Node data built from one entity
(`id: String(entity.id || entity.name), label: entity.name || 'Unknown',
type: entity.type || 'default', properties: entity.properties || {},
mentions: entity.mentions || 1`). -/
structure NodeData where
  id : String
  label : JsVal
  type : JsVal
  properties : List (String × JsVal)
  mentions : JsVal
deriving Repr, DecidableEq

/-- Edge data built from one relationship at input index `idx`
(`id: edge-idx, source, target, label, type`). -/
structure EdgeData where
  id : String
  source : String
  target : String
  label : JsVal
  type : JsVal
deriving Repr, DecidableEq

/-- Node construction for one entity, from the `graphData.entities.map`
callback. -/
def mkNode (e : Entity) : NodeData :=
  ⟨jsString (jsOr e.id e.name),
   jsOr e.name (.str "Unknown"),
   jsOr e.type (.str "default"),
   e.properties.getD [],
   jsOr e.mentions (.num 1)⟩

/-- The `nodes` array: one node record per input entity, in input order. -/
def buildNodes (entities : List Entity) : List NodeData :=
  entities.map mkNode

/-- The `validNodeIds` set, as the list of node ids; the JS `Set.has` test
is list membership here. -/
def validNodeIds (entities : List Entity) : List String :=
  (buildNodes entities).map (·.id)

/-- Resolved edge source: `String(rel.source || rel.from || '')`. -/
def resolveSource (r : Relationship) : String :=
  jsString (jsOr (jsOr r.source r.from') (.str ""))

/-- Resolved edge target: `String(rel.target || rel.to || '')`. -/
def resolveTarget (r : Relationship) : String :=
  jsString (jsOr (jsOr r.target r.to') (.str ""))

/-- Resolved edge type: `rel.type || rel.relationship || 'related'`. -/
def edgeType (r : Relationship) : JsVal :=
  jsOr (jsOr r.type r.relationship) (.str "related")

/-- Edge construction for the relationship at input index `idx`. -/
def mkEdge (idx : Nat) (r : Relationship) : EdgeData :=
  ⟨"edge-" ++ toString idx, resolveSource r, resolveTarget r,
   edgeType r, edgeType r⟩

/-- The validity test `validNodeIds.has(source) && validNodeIds.has(target)`
attached to each mapped edge. -/
def edgeValid (ids : List String) (r : Relationship) : Bool :=
  ids.contains (resolveSource r) && ids.contains (resolveTarget r)

/-- The `edges` array: map every relationship with its input index to an
edge record tagged with its validity, keep the valid ones, drop the tag. -/
def buildEdges (ids : List String) (rels : List Relationship) : List EdgeData :=
  (((rels.enum).map (fun p => (mkEdge p.1 p.2, edgeValid ids p.2))).filter
    (fun p => p.2)).map (fun p => p.1)

/-- The rejected relationships: the mapped edge records that fail the
validity test are filtered out (each with a `console.warn` rejection log
entry), in input order. -/
def rejectedEdges (ids : List String) (rels : List Relationship) : List EdgeData :=
  (((rels.enum).map (fun p => (mkEdge p.1 p.2, edgeValid ids p.2))).filter
    (fun p => !p.2)).map (fun p => p.1)

/-- The validated graph model: the `nodes` and `edges` arrays handed to the
rendering library. -/
structure GraphModel where
  nodes : List NodeData
  edges : List EdgeData
deriving Repr, DecidableEq

/-- Result of a build: `invalid` when `entities` or `relationships` is
missing or not an array (the early-return branches), otherwise the model
plus the rejection log. -/
inductive BuildResult where
  | invalid
  | ok (model : GraphModel) (rejected : List EdgeData)
deriving Repr, DecidableEq

/-- The whole builder: payload shape checks, node construction, edge
validation. -/
def build (p : Payload) : BuildResult :=
  match p.entities, p.relationships with
  | some es, some rels =>
      let nodes := buildNodes es
      let ids := nodes.map (·.id)
      .ok ⟨nodes, buildEdges ids rels⟩ (rejectedEdges ids rels)
  | _, _ => .invalid

/-- The stats record set by `setStats`: node and edge counts from the built
arrays, type buckets from the RAW `graphData.entities` and
`graphData.relationships` (not from the validated model). -/
structure Stats where
  nodes : Nat
  edges : Nat
  entityTypes : List (String × Nat)
  relationshipTypes : List (String × Nat)
deriving Repr, DecidableEq

/-- One step of the JS accumulator `acc[type] = (acc[type] || 0) + 1`:
increment the existing slot for the key, or append a fresh slot (JS object
insertion order). -/
def bump : List (String × Nat) → String → List (String × Nat)
  | [], k => [(k, 1)]
  | (k', c) :: rest, k =>
      if k' = k then (k', c + 1) :: rest else (k', c) :: bump rest k

/-- The `getEntityTypeCounts` reduce over the raw entities; the bucket key is
`entity.type || 'Unknown'` coerced to a string by the JS object. -/
def getEntityTypeCounts (entities : List Entity) : List (String × Nat) :=
  entities.foldl (fun acc e => bump acc (jsString (jsOr e.type (.str "Unknown")))) []

/-- The `getRelationshipTypeCounts` reduce over the raw relationships; the
bucket key is `rel.type || rel.relationship || 'related'`. -/
def getRelationshipTypeCounts (rels : List Relationship) : List (String × Nat) :=
  rels.foldl (fun acc r => bump acc (jsString (edgeType r))) []

/-- The `setStats` call: `nodes.length`, post-validation `edges.length`, and
the two type-count maps computed from the raw payload fields. -/
def statsOf (es : List Entity) (rels : List Relationship) : Stats :=
  ⟨(buildNodes es).length,
   (buildEdges (validNodeIds es) rels).length,
   getEntityTypeCounts es,
   getRelationshipTypeCounts rels⟩

/-- Sum of the counts across the buckets of a type-count map. -/
def sumCounts (l : List (String × Nat)) : Nat :=
  (l.map (·.2)).sum

/-- JSON document tree, the image of `JSON.stringify`. -/
inductive Json where
  | null
  | str (s : String)
  | num (n : Int)
  | bool (b : Bool)
  | arr (xs : List Json)
  | obj (fields : List (String × Json))
deriving Repr, BEq

/-- Serialization of one scalar field value: `undefined` fields are omitted
by `JSON.stringify` (hence `none`), the rest serialize structurally. -/
def jsonOfJsVal : JsVal → Option Json
  | .undef => none
  | .null => some .null
  | .str s => some (.str s)
  | .num n => some (.num n)
  | .bool b => some (.bool b)

/-- An optional object field: present in the serialization exactly when the
value is not `undefined`. -/
def jfield (k : String) (v : JsVal) : List (String × Json) :=
  match jsonOfJsVal v with
  | none => []
  | some j => [(k, j)]

/-- Serialization of a `properties` mapping. -/
def propsToJson (ps : List (String × JsVal)) : Json :=
  .obj (ps.filterMap fun p => (jsonOfJsVal p.2).map (fun j => (p.1, j)))

/-- Serialization of a raw entity record. -/
def entityToJson (e : Entity) : Json :=
  .obj (jfield "id" e.id ++ jfield "name" e.name ++ jfield "type" e.type ++
    (match e.properties with
     | none => []
     | some ps => [("properties", propsToJson ps)]) ++
    jfield "mentions" e.mentions)

/-- Serialization of a raw relationship record, keeping whichever of the
`source`/`from` and `target`/`to` spellings the record actually carries. -/
def relationshipToJson (r : Relationship) : Json :=
  .obj (jfield "source" r.source ++ jfield "from" r.from' ++
    jfield "target" r.target ++ jfield "to" r.to' ++
    jfield "type" r.type ++ jfield "relationship" r.relationship)

/-- Serialization of the raw `graphData` payload. -/
def payloadToJson (p : Payload) : Json :=
  .obj ((match p.entities with
         | none => []
         | some es => [("entities", .arr (es.map entityToJson))]) ++
        (match p.relationships with
         | none => []
         | some rels => [("relationships", .arr (rels.map relationshipToJson))]))

/-- The JSON branch of `exportGraph`: the downloaded document is
`JSON.stringify(graphData, null, 2)` — the raw payload prop, serialized. -/
def exportGraphJson (graphData : Payload) : Json :=
  payloadToJson graphData

/-- Field lookup on a JSON object document. -/
def docField (j : Json) (k : String) : Option Json :=
  match j with
  | .obj fs => fs.lookup k
  | _ => none

/-- Length of a JSON array, when the value is an array. -/
def jsonArrLength : Option Json → Option Nat
  | some (.arr xs) => some xs.length
  | _ => none

/-- Observable event on the shared drawing surface: a cytoscape instance is
destroyed (`cy.destroy()`) or created (`cytoscape({...})`). -/
inductive CyEvent where
  | destroyed (sid : Nat)
  | created (sid : Nat)
deriving Repr, DecidableEq

/-- Outcome of one run of the mount effect, one constructor per early-return
branch plus success. -/
inductive MountOutcome where
  | missingData
  | invalidEntities
  | invalidRelationships
  | surfaceZero
  | mounted
deriving Repr, DecidableEq

/-- Data errors are the malformed-payload outcomes; the zero-extent surface
outcome is a render failure, not a data error. -/
def isDataError : MountOutcome → Bool
  | .invalidEntities => true
  | .invalidRelationships => true
  | _ => false

/-- The destroy-if-present pattern on the session ref: `if (cyRef.current)
{ cyRef.current.destroy(); cyRef.current = null; }`. -/
def destroyCurrent (prev : Option Nat) : Option Nat × List CyEvent :=
  match prev with
  | some s => (none, [.destroyed s])
  | none => (none, [])

/-- One run of the mount effect body: the payload-shape early returns leave
the previous session untouched; otherwise the previous instance is destroyed
first, then the container extent is checked, and only then is the fresh
instance created and stored in the ref. `fresh` is the identity of the
instance this run would create. -/
def mountEffect (prev : Option Nat) (p : Option Payload) (w h fresh : Nat) :
    Option Nat × List CyEvent × MountOutcome :=
  match p with
  | none => (prev, [], .missingData)
  | some pl =>
      match pl.entities with
      | none => (prev, [], .invalidEntities)
      | some _ =>
          match pl.relationships with
          | none => (prev, [], .invalidRelationships)
          | some _ =>
              let d := destroyCurrent prev
              if w = 0 ∨ h = 0 then (d.1, d.2, .surfaceZero)
              else (some fresh, d.2 ++ [.created fresh], .mounted)

/-- The effect cleanup: destroy the current instance when there is one,
otherwise do nothing (total — never an error). -/
def unmountEffect (prev : Option Nat) : Option Nat × List CyEvent :=
  match prev with
  | some s => (none, [.destroyed s])
  | none => (none, [])

/-- An operation against the shared surface: a mount attempt or a cleanup. -/
inductive Op where
  | mountOp (p : Option Payload) (w h fresh : Nat)
  | unmountOp
deriving Repr

/-- One operation step on the session ref, returning the new ref and the
surface events it emitted. -/
def stepOp (st : Option Nat) : Op → Option Nat × List CyEvent
  | .mountOp p w h fresh => ((mountEffect st p w h fresh).1, (mountEffect st p w h fresh).2.1)
  | .unmountOp => unmountEffect st

/-- Run a sequence of operations from a ref state, collecting the full
surface event trace in order. -/
def runOps (st : Option Nat) : List Op → Option Nat × List CyEvent
  | [] => (st, [])
  | op :: ops =>
      let s1 := stepOp st op
      let s2 := runOps s1.1 ops
      (s2.1, s1.2 ++ s2.2)

/-- Contribution of one surface event to the number of live instances. -/
def liveDelta : CyEvent → Int
  | .created _ => 1
  | .destroyed _ => -1

/-- Number of live rendering instances after a trace of surface events. -/
def liveCount (t : List CyEvent) : Int :=
  (t.map liveDelta).sum

/-- Number of sessions held by the ref (zero or one by construction). -/
def countOpt : Option Nat → Int
  | none => 0
  | some _ => 1

/-- The deferred settling-delay fit callback scheduled by a mount. It records
which session scheduled it, but the callback body is
`if (cyRef.current) cyRef.current.fit(50)`. -/
structure FitTimer where
  scheduler : Nat
deriving Repr, DecidableEq

/-- Firing the deferred fit: the fit is applied to whatever session the ref
currently holds (`none` means the callback was a no-op); the scheduler
recorded in the timer is not consulted. -/
def fireFitTimer (current : Option Nat) (_t : FitTimer) : Option Nat :=
  match current with
  | some s => some s
  | none => none

/-- Example payload from the spec's testable properties: two entities, one
valid relationship, one relationship with an unresolvable target. -/
def exEntities : List Entity :=
  [⟨.str "a", .str "Alice", .str "PERSON", none, .undef⟩,
   ⟨.str "b", .str "Acme", .str "ORGANIZATION", none, .undef⟩]

/-- Relationships of the example payload. -/
def exRels : List Relationship :=
  [⟨.str "a", .undef, .str "b", .undef, .str "works_at", .undef⟩,
   ⟨.str "a", .undef, .str "zzz", .undef, .str "bad", .undef⟩]

/-- The example payload itself. -/
def exPayload : Payload := ⟨some exEntities, some exRels⟩

/-- Two entities that resolve to the same identifier but carry different
names. -/
def dupEntities : List Entity :=
  [⟨.str "x", .str "First", .undef, none, .undef⟩,
   ⟨.str "x", .str "Second", .undef, none, .undef⟩]

/-- A payload whose only relationship uses the `source`/`target` field
spelling. -/
def srcTgtPayload : Payload :=
  ⟨some [⟨.str "a", .undef, .undef, none, .undef⟩],
   some [⟨.str "a", .undef, .str "a", .undef, .undef, .undef⟩]⟩

/-- The same graph expressed with the `from`/`to` field spelling: it builds
to the same validated model as `srcTgtPayload`. -/
def fromToPayload : Payload :=
  ⟨some [⟨.str "a", .undef, .undef, none, .undef⟩],
   some [⟨.undef, .str "a", .undef, .str "a", .undef, .undef⟩]⟩

/-- A payload with one entity and one relationship whose target resolves to
no node: its single relationship is rejected. -/
def rejectedOnlyPayload : Payload :=
  ⟨some [⟨.str "a", .undef, .undef, none, .undef⟩],
   some [⟨.str "a", .undef, .str "zzz", .undef, .str "bad", .undef⟩]⟩

/-- Bounded-occupancy property of an event trace started with `c` live
instances: after every prefix of the trace, between zero and one instances
are live. -/
def goodTrace (c : Int) (t : List CyEvent) : Prop :=
  ∀ n, 0 ≤ c + liveCount (t.take n) ∧ c + liveCount (t.take n) ≤ 1

/-- Membership in the materialized edge list: exactly the relationships at
some input position that pass the validity test. -/
theorem mem_buildEdges {ids : List String} {rels : List Relationship}
    {e : EdgeData} :
    e ∈ buildEdges ids rels ↔
      ∃ k r, rels[k]? = some r ∧ edgeValid ids r = true ∧ mkEdge k r = e := by
  constructor
  · intro h
    simp only [buildEdges, List.mem_map] at h
    obtain ⟨⟨ed, b⟩, hmem, hed⟩ := h
    rw [List.mem_filter] at hmem
    obtain ⟨hmem, hb⟩ := hmem
    simp only [List.mem_map] at hmem
    obtain ⟨⟨k, r⟩, hk, heq⟩ := hmem
    rw [List.mem_enum_iff_getElem?] at hk
    injection heq with h1 h2
    subst h1
    subst h2
    exact ⟨k, r, hk, hb, hed⟩
  · rintro ⟨k, r, hk, hvalid, rfl⟩
    simp only [buildEdges, List.mem_map]
    refine ⟨(mkEdge k r, edgeValid ids r), ?_, rfl⟩
    rw [List.mem_filter]
    refine ⟨?_, hvalid⟩
    simp only [List.mem_map]
    exact ⟨(k, r), List.mem_enum_iff_getElem?.2 hk, rfl⟩

/-- Membership in the rejection log: exactly the relationships at some input
position that fail the validity test. -/
theorem mem_rejectedEdges {ids : List String} {rels : List Relationship}
    {e : EdgeData} :
    e ∈ rejectedEdges ids rels ↔
      ∃ k r, rels[k]? = some r ∧ edgeValid ids r = false ∧ mkEdge k r = e := by
  constructor
  · intro h
    simp only [rejectedEdges, List.mem_map] at h
    obtain ⟨⟨ed, b⟩, hmem, hed⟩ := h
    rw [List.mem_filter] at hmem
    obtain ⟨hmem, hb⟩ := hmem
    simp only [List.mem_map] at hmem
    obtain ⟨⟨k, r⟩, hk, heq⟩ := hmem
    rw [List.mem_enum_iff_getElem?] at hk
    injection heq with h1 h2
    subst h1
    subst h2
    refine ⟨k, r, hk, ?_, hed⟩
    simpa using hb
  · rintro ⟨k, r, hk, hvalid, rfl⟩
    simp only [rejectedEdges, List.mem_map]
    refine ⟨(mkEdge k r, edgeValid ids r), ?_, rfl⟩
    rw [List.mem_filter]
    refine ⟨?_, by simp [hvalid]⟩
    simp only [List.mem_map]
    exact ⟨(k, r), List.mem_enum_iff_getElem?.2 hk, rfl⟩

/-- Unfolding of a successful build. -/
theorem build_ok {es : List Entity} {rels : List Relationship}
    {m : GraphModel} {rej : List EdgeData}
    (hp : build ⟨some es, some rels⟩ = .ok m rej) :
    m = ⟨buildNodes es, buildEdges (validNodeIds es) rels⟩ ∧
      rej = rejectedEdges (validNodeIds es) rels := by
  simp only [build, validNodeIds] at hp ⊢
  cases hp
  exact ⟨rfl, rfl⟩

/-- Partition of a list's length by a boolean test. -/
theorem length_filter_not_add {α : Type} (l : List α) (p : α → Bool) :
    (l.filter fun a => !p a).length + (l.filter p).length = l.length := by
  induction l with
  | nil => rfl
  | cons a t ih =>
      by_cases h : p a = true <;> simp [List.filter_cons, h] <;> omega

/-- C1: for every payload whose `entities` and `relationships` fields are
arrays, every edge materialized into the built model has both its resolved
source and resolved target in the model's node-id set, and every
relationship in the rejection log fails that membership test — it is
dropped, never materialized, renamed, or matched against an auto-created
node. -/
theorem built_edges_endpoints_in_model (es : List Entity)
    (rels : List Relationship) (m : GraphModel) (rej : List EdgeData)
    (hp : build ⟨some es, some rels⟩ = .ok m rej) :
    (∀ e ∈ m.edges, (m.nodes.map (·.id)).contains e.source = true ∧
        (m.nodes.map (·.id)).contains e.target = true) ∧
    (∀ e ∈ rej, ¬((m.nodes.map (·.id)).contains e.source = true ∧
        (m.nodes.map (·.id)).contains e.target = true)) := by
  obtain ⟨hm, hrej⟩ := build_ok hp
  subst hm
  subst hrej
  constructor
  · intro e he
    obtain ⟨k, r, hk, hv, rfl⟩ := mem_buildEdges.1 he
    rw [edgeValid, Bool.and_eq_true] at hv
    exact ⟨hv.1, hv.2⟩
  · intro e he hcontra
    obtain ⟨k, r, hk, hv, rfl⟩ := mem_rejectedEdges.1 he
    rw [edgeValid] at hv
    have h1 : (validNodeIds es).contains (resolveSource r) = true := hcontra.1
    have h2 : (validNodeIds es).contains (resolveTarget r) = true := hcontra.2
    rw [h1, h2] at hv
    simp at hv

/-- Witness for C1 at the example payload: the valid works_at edge has its
source in the node-id set, and the rejected edge fails the test. -/
theorem built_edges_endpoints_in_model_witness :
    ((buildNodes exEntities).map (·.id)).contains
      (mkEdge 0 ⟨.str "a", .undef, .str "b", .undef, .str "works_at", .undef⟩).source
      = true := by
  have h := (built_edges_endpoints_in_model exEntities exRels
      ⟨buildNodes exEntities, buildEdges (validNodeIds exEntities) exRels⟩
      (rejectedEdges (validNodeIds exEntities) exRels) rfl).1
  exact (h _ (by decide)).1

/-- C2: for every payload whose fields are arrays, each input relationship
is classified exactly once, so the rejection count plus the materialized
edge count equals the length of the input relationships sequence. -/
theorem edge_accounting (es : List Entity) (rels : List Relationship)
    (m : GraphModel) (rej : List EdgeData)
    (hp : build ⟨some es, some rels⟩ = .ok m rej) :
    rej.length + m.edges.length = rels.length := by
  obtain ⟨hm, hrej⟩ := build_ok hp
  subst hm
  subst hrej
  simp only [rejectedEdges, buildEdges, List.length_map]
  have hL : ((rels.enum).map
      (fun p => (mkEdge p.1 p.2, edgeValid (validNodeIds es) p.2))).length
      = rels.length := by
    simp [List.enum_length]
  exact (length_filter_not_add _ (fun p => p.2)).trans hL

/-- Witness for C2 at the example payload: one rejection plus one
materialized edge accounts for the two input relationships. -/
theorem edge_accounting_witness :
    (rejectedEdges (validNodeIds exEntities) exRels).length +
      (buildEdges (validNodeIds exEntities) exRels).length = exRels.length :=
  edge_accounting exEntities exRels
    ⟨buildNodes exEntities, buildEdges (validNodeIds exEntities) exRels⟩
    (rejectedEdges (validNodeIds exEntities) exRels) rfl

/-- C7: building from the same payload twice yields identical results, and
every materialized edge is the record built from the input relationship at
some input position `k`, carrying the synthetic id `edge-k` taken from that
input position (not from its post-filter position). -/
theorem build_deterministic_input_indexed_ids (es : List Entity)
    (rels : List Relationship) :
    build ⟨some es, some rels⟩ = build ⟨some es, some rels⟩ ∧
    ∀ e ∈ buildEdges (validNodeIds es) rels,
      ∃ k, ∃ h : k < rels.length,
        e = mkEdge k (rels.get ⟨k, h⟩) ∧
        edgeValid (validNodeIds es) (rels.get ⟨k, h⟩) = true ∧
        e.id = "edge-" ++ toString k := by
  refine ⟨rfl, ?_⟩
  intro e he
  obtain ⟨k, r, hk, hv, rfl⟩ := mem_buildEdges.1 he
  obtain ⟨hlt, hget⟩ := List.getElem?_eq_some.1 hk
  have hr : rels.get ⟨k, hlt⟩ = r := by simpa using hget
  exact ⟨k, hlt, by rw [hr], by rw [hr]; exact hv, rfl⟩

/-- Witness for C7: the materialized edge of the example payload comes from
input position 0 and carries the id `edge-0`. -/
theorem build_deterministic_input_indexed_ids_witness :
    ∃ k, ∃ h : k < exRels.length,
      mkEdge 0 ⟨.str "a", .undef, .str "b", .undef, .str "works_at", .undef⟩ =
        mkEdge k (exRels.get ⟨k, h⟩) ∧
      edgeValid (validNodeIds exEntities) (exRels.get ⟨k, h⟩) = true ∧
      (mkEdge 0 ⟨.str "a", .undef, .str "b", .undef, .str "works_at",
        .undef⟩).id = "edge-" ++ toString k :=
  (build_deterministic_input_indexed_ids exEntities exRels).2 _ (by decide)

/-- Counterexample for C6: two input entities sharing the identifier `x`
yield a model containing TWO node records with id `x`, not exactly one. -/
theorem duplicate_ids_not_collapsed :
    ((buildNodes dupEntities).filter (fun n => n.id == "x")).length = 2 ∧
    ¬((buildNodes dupEntities).filter (fun n => n.id == "x")).length = 1 := by
  decide

/-- C6 amended: the builder does not collapse entities that resolve to the
same identifier: the model contains one node record per input entity in
input order — node `k` is built from entity `k` — so duplicate identifiers
yield duplicate records, deterministically. -/
theorem nodes_one_per_entity (es : List Entity) :
    (buildNodes es).length = es.length ∧
    ∀ k : Nat, (buildNodes es)[k]? = (es[k]?).map mkNode := by
  refine ⟨List.length_map .., ?_⟩
  intro k
  simp [buildNodes]

/-- Counterexample for C10: an entity whose `id` and `name` are present but
falsy (empty strings) resolves to the identifier `""`, not `"undefined"`;
and two entities with both fields absent yield two node records with id
`"undefined"`, not a single collapsed node. -/
theorem undef_id_resolution_counterexample :
    (mkNode ⟨.str "", .str "", .undef, none, .undef⟩).id = "" ∧
    ("" : String) ≠ "undefined" ∧
    ((buildNodes [({} : Entity), ({} : Entity)]).filter
      (fun n => n.id == "undefined")).length = 2 := by
  refine ⟨rfl, by decide, by decide⟩

/-- C10 amended: when both `id` and `name` are absent (`undefined`), the
resolved identifier is the literal string `undefined`; each such entity
contributes its own node record with that id, the model's node-id set then
contains `undefined`, and a relationship whose endpoints equal the string
`undefined` passes validation against it. -/
theorem undef_id_resolution (e : Entity) (he1 : e.id = .undef)
    (he2 : e.name = .undef) (es : List Entity) (hes : e ∈ es)
    (r : Relationship) (hr1 : r.source = .str "undefined")
    (hr2 : r.target = .str "undefined") :
    (mkNode e).id = "undefined" ∧
    (validNodeIds es).contains "undefined" = true ∧
    edgeValid (validNodeIds es) r = true := by
  have hid : (mkNode e).id = "undefined" := by
    simp [mkNode, jsOr, jsString, he1, he2, JsVal.truthy]
  have hmem : "undefined" ∈ validNodeIds es := by
    simp only [validNodeIds, buildNodes, List.map_map, List.mem_map]
    exact ⟨e, hes, hid⟩
  have hcont : (validNodeIds es).contains "undefined" = true :=
    List.elem_eq_true_of_mem hmem
  refine ⟨hid, hcont, ?_⟩
  have hs : resolveSource r = "undefined" := by
    simp [resolveSource, hr1, jsOr, JsVal.truthy, jsString]
  have ht : resolveTarget r = "undefined" := by
    simp [resolveTarget, hr2, jsOr, JsVal.truthy, jsString]
  rw [edgeValid, hs, ht, hcont]
  rfl

/-- Witness for the amended C10 at a concrete blank entity, duplicate blank
list, and `undefined`-endpoint relationship. -/
theorem undef_id_resolution_witness :
    (mkNode ({} : Entity)).id = "undefined" ∧
    (validNodeIds [({} : Entity), ({} : Entity)]).contains "undefined"
      = true ∧
    edgeValid (validNodeIds [({} : Entity), ({} : Entity)])
      ⟨.str "undefined", .undef, .str "undefined", .undef, .undef, .undef⟩
      = true :=
  undef_id_resolution ({} : Entity) rfl rfl [({} : Entity), ({} : Entity)]
    (by decide)
    ⟨.str "undefined", .undef, .str "undefined", .undef, .undef, .undef⟩
    rfl rfl

/-- Bumping a bucket map raises the total count by one. -/
theorem sumCounts_bump (acc : List (String × Nat)) (k : String) :
    sumCounts (bump acc k) = sumCounts acc + 1 := by
  induction acc with
  | nil => rfl
  | cons a rest ih =>
      obtain ⟨k', c⟩ := a
      by_cases h : k' = k
      · simp [bump, h, sumCounts]
        omega
      · simp only [bump, if_neg h]
        simp [sumCounts] at ih ⊢
        omega

/-- Folding the bump accumulator over a list counts every element once. -/
theorem sumCounts_foldl_bump {α : Type} (l : List α) (f : α → String)
    (acc : List (String × Nat)) :
    sumCounts (l.foldl (fun a x => bump a (f x)) acc) =
      sumCounts acc + l.length := by
  induction l generalizing acc with
  | nil => simp
  | cons x t ih =>
      simp only [List.foldl_cons, List.length_cons, ih, sumCounts_bump]
      omega

/-- Counterexample for C5: on a payload whose single relationship is
rejected, the per-relationship-type buckets still count it — their sum is 1
while the model's materialized edge count is 0, so the stats are not a
function of the validated model and rejected edges are counted. -/
theorem stats_count_rejected_counterexample :
    (statsOf [⟨.str "a", .undef, .undef, none, .undef⟩]
      [⟨.str "a", .undef, .str "zzz", .undef, .str "bad", .undef⟩]).edges
      = 0 ∧
    sumCounts (statsOf [⟨.str "a", .undef, .undef, none, .undef⟩]
      [⟨.str "a", .undef, .str "zzz", .undef, .str "bad", .undef⟩]).relationshipTypes
      = 1 := by
  decide

/-- C5 amended: the displayed node and edge counts do come from the built
arrays (and node count equals entity count since duplicates are not
collapsed), but the type buckets are computed from the RAW payload: the
per-entity-type counts sum to the raw entity count and the
per-relationship-type counts sum to the raw relationship count — that is,
to materialized edges PLUS rejected edges, so rejections are counted. -/
theorem stats_aggregation (es : List Entity) (rels : List Relationship) :
    (statsOf es rels).nodes = (buildNodes es).length ∧
    (statsOf es rels).edges = (buildEdges (validNodeIds es) rels).length ∧
    sumCounts ((statsOf es rels).entityTypes) = es.length ∧
    es.length = (buildNodes es).length ∧
    sumCounts ((statsOf es rels).relationshipTypes) = rels.length ∧
    rels.length = (rejectedEdges (validNodeIds es) rels).length +
      (buildEdges (validNodeIds es) rels).length := by
  refine ⟨rfl, rfl, ?_, ?_, ?_, ?_⟩
  · have h := sumCounts_foldl_bump es
      (fun e => jsString (jsOr e.type (.str "Unknown"))) []
    simpa [statsOf, getEntityTypeCounts, sumCounts] using h
  · exact (List.length_map ..).symm
  · have h := sumCounts_foldl_bump rels
      (fun r => jsString (edgeType r)) []
    simpa [statsOf, getRelationshipTypeCounts, sumCounts] using h
  · simp only [rejectedEdges, buildEdges, List.length_map]
    have hL : ((rels.enum).map
        (fun p => (mkEdge p.1 p.2, edgeValid (validNodeIds es) p.2))).length
        = rels.length := by
      simp [List.enum_length]
    exact (hL.symm.trans (length_filter_not_add _ (fun p => p.2)).symm)

/-- Counterexample for C4: two payloads that build to the identical
validated model (one spells its relationship `source`/`target`, the other
`from`/`to`) serialize to different exported JSON documents, so the export
is the raw payload, not a serialization of the validated model. -/
theorem export_not_model_serialization :
    build srcTgtPayload = build fromToPayload ∧
    exportGraphJson srcTgtPayload ≠ exportGraphJson fromToPayload := by
  constructor
  · decide
  · simp [exportGraphJson, payloadToJson, srcTgtPayload, fromToPayload,
      entityToJson, relationshipToJson, jfield, jsonOfJsVal, propsToJson]

/-- C4 amended: the JSON export serializes the raw backend payload
(`JSON.stringify(graphData)`), not the validated model: the exported
document is exactly the raw payload's serialization, with one entry per raw
entity and one entry per raw relationship — rejected relationships
included. -/
theorem export_serializes_raw_payload (es : List Entity)
    (rels : List Relationship) :
    exportGraphJson ⟨some es, some rels⟩ =
      payloadToJson ⟨some es, some rels⟩ ∧
    jsonArrLength (docField (exportGraphJson ⟨some es, some rels⟩)
      "entities") = some es.length ∧
    jsonArrLength (docField (exportGraphJson ⟨some es, some rels⟩)
      "relationships") = some rels.length := by
  refine ⟨rfl, ?_, ?_⟩ <;>
    simp [exportGraphJson, payloadToJson, docField, jsonArrLength,
      List.lookup]

/-- The live-instance count of an empty trace. -/
theorem liveCount_nil : liveCount [] = 0 := rfl

/-- The live-instance count distributes over trace concatenation. -/
theorem liveCount_append (a b : List CyEvent) :
    liveCount (a ++ b) = liveCount a + liveCount b := by
  simp [liveCount]

/-- Bounded occupancy concatenates: a trace good from `c` followed by a
trace good from the resulting count is good from `c`. -/
theorem goodTrace_append {c : Int} {t1 t2 : List CyEvent}
    (h1 : goodTrace c t1) (h2 : goodTrace (c + liveCount t1) t2) :
    goodTrace c (t1 ++ t2) := by
  intro n
  rw [List.take_append_eq_append_take, liveCount_append]
  rcases le_or_lt n t1.length with h | h
  · have hz : t2.take (n - t1.length) = [] := by
      rw [Nat.sub_eq_zero_of_le h]
      rfl
    rw [hz, liveCount_nil]
    have := h1 n
    constructor <;> omega
  · have ht1 : t1.take n = t1 := List.take_of_length_le (le_of_lt h)
    rw [ht1]
    have := h2 (n - t1.length)
    constructor <;> omega

/-- The empty trace is good from zero live instances. -/
theorem goodTrace_nil_zero : goodTrace 0 [] := by
  intro n
  simp [liveCount]

/-- The empty trace is good from one live instance. -/
theorem goodTrace_nil_one : goodTrace 1 [] := by
  intro n
  simp [liveCount]

/-- Destroying the single live instance is a good trace. -/
theorem goodTrace_destroy (s : Nat) : goodTrace 1 [.destroyed s] := by
  intro n
  rcases n with _ | n <;> simp [liveCount, liveDelta]

/-- Creating an instance when none is live is a good trace. -/
theorem goodTrace_create (f : Nat) : goodTrace 0 [.created f] := by
  intro n
  rcases n with _ | n <;> simp [liveCount, liveDelta]

/-- Destroying the live instance and then creating a fresh one never exceeds
one live instance. -/
theorem goodTrace_destroy_create (s f : Nat) :
    goodTrace 1 [.destroyed s, .created f] := by
  intro n
  rcases n with _ | _ | n <;> simp [liveCount, liveDelta]

/-- Every single operation emits a bounded-occupancy trace and leaves the
ref holding exactly the net number of live instances. -/
theorem step_goodTrace (st : Option Nat) (op : Op) :
    goodTrace (countOpt st) (stepOp st op).2 ∧
    countOpt (stepOp st op).1 = countOpt st + liveCount (stepOp st op).2 := by
  cases op with
  | unmountOp =>
      cases st with
      | none => exact ⟨goodTrace_nil_zero, rfl⟩
      | some s => exact ⟨goodTrace_destroy s, rfl⟩
  | mountOp p w h fresh =>
      rcases p with _ | ⟨ents, rls⟩
      · cases st with
        | none => exact ⟨goodTrace_nil_zero, rfl⟩
        | some s => exact ⟨goodTrace_nil_one, rfl⟩
      · rcases ents with _ | es
        · cases st with
          | none => exact ⟨goodTrace_nil_zero, rfl⟩
          | some s => exact ⟨goodTrace_nil_one, rfl⟩
        · rcases rls with _ | rels
          · cases st with
            | none => exact ⟨goodTrace_nil_zero, rfl⟩
            | some s => exact ⟨goodTrace_nil_one, rfl⟩
          · by_cases hz : w = 0 ∨ h = 0
            · cases st with
              | none =>
                  refine ⟨?_, ?_⟩ <;>
                    simp [stepOp, mountEffect, hz, destroyCurrent,
                      goodTrace_nil_zero, countOpt, liveCount]
              | some s =>
                  constructor
                  · have := goodTrace_destroy s
                    simpa [stepOp, mountEffect, hz, destroyCurrent, countOpt]
                      using this
                  · simp [stepOp, mountEffect, hz, destroyCurrent, countOpt,
                      liveCount, liveDelta]
            · cases st with
              | none =>
                  constructor
                  · have := goodTrace_create fresh
                    simpa [stepOp, mountEffect, hz, destroyCurrent, countOpt]
                      using this
                  · simp [stepOp, mountEffect, hz, destroyCurrent, countOpt,
                      liveCount, liveDelta]
              | some s =>
                  constructor
                  · have := goodTrace_destroy_create s fresh
                    simpa [stepOp, mountEffect, hz, destroyCurrent, countOpt]
                      using this
                  · simp [stepOp, mountEffect, hz, destroyCurrent, countOpt,
                      liveCount, liveDelta]

/-- Running any operation sequence emits a bounded-occupancy trace, and the
final ref content matches the net count of the trace. -/
theorem runOps_goodTrace (ops : List Op) : ∀ st : Option Nat,
    goodTrace (countOpt st) (runOps st ops).2 ∧
    countOpt (runOps st ops).1 = countOpt st + liveCount (runOps st ops).2 := by
  induction ops with
  | nil =>
      intro st
      constructor
      · cases st with
        | none => exact goodTrace_nil_zero
        | some s => exact goodTrace_nil_one
      · simp [runOps, liveCount]
  | cons op ops ih =>
      intro st
      have hstep := step_goodTrace st op
      have hrest := ih (stepOp st op).1
      constructor
      · show goodTrace (countOpt st) ((stepOp st op).2 ++ (runOps (stepOp st op).1 ops).2)
        apply goodTrace_append hstep.1
        rw [← hstep.2]
        exact hrest.1
      · show countOpt (runOps (stepOp st op).1 ops).1 =
          countOpt st + liveCount ((stepOp st op).2 ++ (runOps (stepOp st op).1 ops).2)
        rw [liveCount_append, hrest.2, hstep.2]
        ring

/-- Running an appended operation sequence composes the final ref states. -/
theorem runOps_append_fst (st : Option Nat) (l1 l2 : List Op) :
    (runOps st (l1 ++ l2)).1 = (runOps (runOps st l1).1 l2).1 := by
  induction l1 generalizing st with
  | nil => rfl
  | cons op t ih => simp [runOps, ih]

/-- C3: a successful mount over a live session destroys it synchronously
before the new instance is created (the trace is destroy-then-create and the
ref then holds exactly the fresh session); across any operation sequence at
most one instance is ever live; and unmount is idempotent — on an
already-destroyed session it is a no-op, not an error. -/
theorem mount_destroy_before_create (s fresh w h : Nat) (es : List Entity)
    (rels : List Relationship) (hw : w ≠ 0) (hh : h ≠ 0) :
    mountEffect (some s) (some ⟨some es, some rels⟩) w h fresh =
      (some fresh, [.destroyed s, .created fresh], .mounted) ∧
    (∀ ops : List Op, ∀ n : Nat,
      0 ≤ liveCount (((runOps none ops).2).take n) ∧
      liveCount (((runOps none ops).2).take n) ≤ 1) ∧
    (∀ st : Option Nat, unmountEffect (unmountEffect st).1 = (none, [])) ∧
    unmountEffect none = (none, []) := by
  refine ⟨?_, ?_, ?_, rfl⟩
  · have hz : ¬(w = 0 ∨ h = 0) := by
      rintro (h | h)
      exacts [hw h, hh h]
    simp [mountEffect, destroyCurrent, hz]
  · intro ops n
    have h := (runOps_goodTrace ops none).1 n
    simpa [countOpt] using h
  · intro st
    cases st <;> rfl

/-- Witness for C3 at a concrete live session, payload and surface. -/
theorem mount_destroy_before_create_witness :
    mountEffect (some 7) (some ⟨some exEntities, some exRels⟩) 800 600 8 =
      (some 8, [.destroyed 7, .created 8], .mounted) :=
  (mount_destroy_before_create 7 8 800 600 exEntities exRels (by decide)
    (by decide)).1

/-- C8: with a well-formed payload, a zero-extent surface makes the mount
effect stop before creating any rendering instance — the ref ends empty, no
`created` event is emitted, and the reported outcome is the zero-surface
render failure, distinct from the data errors; with a nonzero-extent
surface the check passes and mounting proceeds to a live instance. -/
theorem zero_extent_reported_not_attempted (prev : Option Nat) (pl : Payload)
    (w h fresh : Nat) (es : List Entity) (rels : List Relationship)
    (he : pl.entities = some es) (hr : pl.relationships = some rels) :
    ((w = 0 ∨ h = 0) →
      (mountEffect prev (some pl) w h fresh).2.2 = .surfaceZero ∧
      (mountEffect prev (some pl) w h fresh).1 = none ∧
      (∀ sid : Nat,
        CyEvent.created sid ∉ (mountEffect prev (some pl) w h fresh).2.1) ∧
      isDataError .surfaceZero = false ∧
      MountOutcome.surfaceZero ≠ .mounted) ∧
    (¬(w = 0 ∨ h = 0) →
      (mountEffect prev (some pl) w h fresh).2.2 = .mounted ∧
      (mountEffect prev (some pl) w h fresh).1 = some fresh) := by
  rcases pl with ⟨ents, rls⟩
  simp only at he hr
  cases he
  cases hr
  constructor
  · intro hz
    refine ⟨?_, ?_, ?_, rfl, by decide⟩
    · simp [mountEffect, hz]
    · cases prev <;> simp [mountEffect, hz, destroyCurrent]
    · intro sid
      cases prev <;> simp [mountEffect, hz, destroyCurrent]
  · intro hz
    constructor <;> simp [mountEffect, hz]

/-- Witness for C8: a zero-width surface at mount time with the example
payload yields the zero-surface outcome and no live instance. -/
theorem zero_extent_reported_witness :
    (mountEffect (some 5) (some exPayload) 0 600 9).2.2 = .surfaceZero ∧
    (mountEffect (some 5) (some exPayload) 0 600 9).1 = none := by
  have h := (zero_extent_reported_not_attempted (some 5) exPayload 0 600 9
      exEntities exRels rfl rfl).1 (Or.inl rfl)
  exact ⟨h.1, h.2.1⟩

/-- Counterexample for C9: session 1 mounts and schedules its deferred fit,
is unmounted, and session 2 mounts before the delay fires; the callback then
applies the fit to session 2 — a session other than the scheduling session 1
— because the staleness check is only the nullability of `cyRef.current`. -/
theorem deferred_fit_not_by_identity :
    fireFitTimer (runOps none
      [Op.mountOp (some exPayload) 800 600 1, Op.unmountOp,
       Op.mountOp (some exPayload) 800 600 2]).1 ⟨1⟩ = some 2 ∧
    (some 2 : Option Nat) ≠ some 1 := by
  constructor
  · decide
  · decide

/-- C9 amended: the deferred fit checks only whether the shared ref
currently holds a session: after any operation sequence that ends with the
scheduling session unmounted and nothing remounted, the deferred fit is a
no-op; whenever some session is live at fire time, the fit applies to that
current session, whatever scheduled the timer. -/
theorem deferred_fit_nullability_only (ops : List Op) (tm tm2 : FitTimer)
    (st : Option Nat) :
    fireFitTimer (runOps none (ops ++ [Op.unmountOp])).1 tm = none ∧
    fireFitTimer st tm2 = st := by
  constructor
  · rw [runOps_append_fst]
    rcases h : (runOps none ops).1 with _ | s <;> rfl
  · cases st <;> rfl
